import Mathlib

/-!
Verification development for the magnus-garmin-ecc backend.

The repository is a collection of near-duplicate Express server drafts
(`src/server.js` plus `src/unnamed/part_000` … `part_010`) sharing an
in-memory `DevicesStore`.  This file gives a shallow embedding of the
ingestion / SOS / messaging logic of the drafts cited by the claims:

* the `DevicesStore` of the second draft inside `src/server.js`
  (lines 588-799: `getOrCreate`, `_ingestEvent`, `addOutboundMessage`,
  `ackSos`, `closeIncident`) together with the
  `POST /api/garmin/devices/:imei/message` route (lines 866-915);
* `upsertDeviceFromIpc` of `src/unnamed/part_000` (lines 47-170);
* `DevicesStore.upsertFromOutboundEvent` of the second draft inside
  `src/unnamed/part_002` (lines 581-722).

Raw Garmin IPC payloads are dynamically typed JavaScript values; they are
modelled by the inductive `JsVal` below.  JavaScript numbers are modelled
by `Rat` (no claim depends on float-specific behaviour); `NaN` is a
separate constructor because the sources branch on `typeof`/`isNaN`.
Runtime exceptions (`TypeError` from calling `.trim()`/`.toLowerCase()` on
a non-string or from property access on `null`/`undefined`, `RangeError`
from `Date.prototype.toISOString` on an invalid date) are modelled with
`Except JsErr`.  When a draft throws mid-event, the JS store keeps the
partially mutated device object; the `Except` model returns only the
error — no theorem below depends on the post-throw store contents.
-/

/-- JavaScript runtime exceptions thrown by the modelled code paths. -/
inductive JsErr where
  | typeError
  | rangeError
deriving DecidableEq, Repr

/-- Dynamically-typed JavaScript values as they occur in IPC payloads. -/
inductive JsVal where
  | undefined
  | jnull
  | jbool (b : Bool)
  | jnum (q : Rat)
  | jnan
  | jstr (s : String)
  | jobj (fields : List (String × JsVal))
  | jarr (elems : List JsVal)

/-- JavaScript truthiness. -/
def JsVal.truthy : JsVal → Bool
  | .undefined => false
  | .jnull => false
  | .jbool b => b
  | .jnum q => !(q == 0)
  | .jnan => false
  | .jstr s => !(s == "")
  | .jobj _ => true
  | .jarr _ => true

/-- Test `x === undefined` (used for the `typeof x !== "undefined"` ternaries). -/
def JsVal.isUndefined : JsVal → Bool
  | .undefined => true
  | _ => false

/-- Loose `x == null`: true exactly for `null` and `undefined`. -/
def JsVal.isNullish : JsVal → Bool
  | .undefined => true
  | .jnull => true
  | _ => false

/-- Whether the value is a string primitive. -/
def JsVal.isStr : JsVal → Bool
  | .jstr _ => true
  | _ => false

/-- First binding of a key in an object literal. -/
def lookupField : List (String × JsVal) → String → JsVal
  | [], _ => .undefined
  | (k₁, v) :: rest, k => if k₁ = k then v else lookupField rest k

/-- Property read on a value that is not `null`/`undefined`.  Reading a
custom property off a primitive yields `undefined` in JavaScript; the
built-in `length` of strings and arrays is modelled because it exists. -/
def getFD : JsVal → String → JsVal
  | .jobj fields, k => lookupField fields k
  | .jstr s, k => if k = "length" then .jnum s.length else .undefined
  | .jarr xs, k => if k = "length" then .jnum xs.length else .undefined
  | _, _ => .undefined

/-- Property read that can throw: `(null).k` / `(undefined).k` is a
`TypeError`. -/
def getF (v : JsVal) (k : String) : Except JsErr JsVal :=
  if v.isNullish then .error .typeError else .ok (getFD v k)

/-- JavaScript `a || b`. -/
def jsOr (a b : JsVal) : JsVal := if a.truthy then a else b

/-- JavaScript `a ?? b` (nullish coalescing). -/
def nullishOr (a b : JsVal) : JsVal := if a.isNullish then b else a

/-- Optional chaining `v?.k₁?.k₂` (as, as in `ev?.Device?.Imei`). -/
def optChain (v : JsVal) (k₁ k₂ : String) : JsVal :=
  if v.isNullish then .undefined
  else
    let m := getFD v k₁
    if m.isNullish then .undefined else getFD m k₂

/-- Strict `v === n` for a numeric literal `n` (strict equality, so `NaN`,
strings and everything non-number compare false). -/
def strictEqNum (v : JsVal) (n : Rat) : Bool :=
  match v with
  | .jnum q => q == n
  | _ => false

/-- Loose `v != null`. -/
def looseNeNull (v : JsVal) : Bool := !v.isNullish

/-- Model of `String.prototype.trim`: drop whitespace from both ends.
(Structurally recursive, unlike `String.trim`, so concrete witnesses can
be checked by the kernel.) -/
def jsStrTrim (s : String) : String :=
  ⟨((s.data.dropWhile Char.isWhitespace).reverse.dropWhile Char.isWhitespace).reverse⟩

/-- Call `v.trim()`: only strings have `trim`; anything else is a `TypeError`. -/
def jsTrim : JsVal → Except JsErr String
  | .jstr s => .ok (jsStrTrim s)
  | _ => .error .typeError

/-- Call `v.toLowerCase()`: only strings; anything else is a `TypeError`. -/
def jsToLowerE : JsVal → Except JsErr String
  | .jstr s => .ok s.toLower
  | _ => .error .typeError

/-- Substring test, used for `String.prototype.includes`. -/
def containsSub (s sub : String) : Bool := (s.splitOn sub).length > 1

/-- Decimal digit parser for the model of `Number(string)`. -/
def parseNatDigits (cs : List Char) : Option Nat :=
  match cs with
  | [] => none
  | _ => cs.foldlM
      (fun acc c => if c.isDigit then some (acc * 10 + (c.toNat - 48)) else none) 0

/-- Model of `Number(string)`: empty/whitespace is `0`, signed decimal
notation parses, anything else is `NaN`.  (Exotic notations — hex,
exponents, `Infinity` — are not modelled; no modelled code path depends
on them.) -/
def strToNum (s : String) : Option Rat :=
  let t := jsStrTrim s
  if t = "" then some 0
  else
    let sgn : Rat := if t.startsWith "-" then -1 else 1
    let body := if t.startsWith "-" || t.startsWith "+" then t.drop 1 else t
    match body.splitOn "." with
    | [ip] => (parseNatDigits ip.data).map (fun n => sgn * (n : Rat))
    | [ip, fp] =>
      if ip = "" && fp = "" then none
      else
        match (if ip = "" then some 0 else parseNatDigits ip.data),
              (if fp = "" then some 0 else parseNatDigits fp.data) with
        | some a, some b =>
            some (sgn * ((a : Rat) + (b : Rat) / ((10 : Rat) ^ fp.length)))
        | _, _ => none
    | _ => none

/-- Model of the `Number(v)` coercion (`none` is `NaN`). -/
def jsToNumber : JsVal → Option Rat
  | .undefined => none
  | .jnull => some 0
  | .jbool b => some (if b then 1 else 0)
  | .jnum q => some q
  | .jnan => none
  | .jstr s => strToNum s
  | .jobj _ => none
  | .jarr _ => none

/-- Model of the `String(v)` coercion.  Only injectivity on the values the
drafts actually convert matters; numbers are rendered through `Rat`
(injective, though the digits differ from JS), arrays through their
element count (JS joins the elements; never used as a store key by any
claim). -/
def jsToString : JsVal → String
  | .undefined => "undefined"
  | .jnull => "null"
  | .jbool b => if b then "true" else "false"
  | .jnum q => toString q
  | .jnan => "NaN"
  | .jstr s => s
  | .jobj _ => "[object Object]"
  | .jarr xs => toString xs.length

/-- String concatenation `a + b` when at least one side is a string. -/
def jsConcat (a b : JsVal) : JsVal := .jstr (jsToString a ++ jsToString b)

/-- Key equality of `Map` (SameValueZero).  Primitives compare structurally
(`NaN` equals `NaN` as a Map key); objects and arrays compare by
reference in JS — distinct embedded values are taken to be distinct
references.  Every store key produced by a claim below is a string. -/
def jsKeyEq : JsVal → JsVal → Bool
  | .undefined, .undefined => true
  | .jnull, .jnull => true
  | .jbool a, .jbool b => a == b
  | .jnum a, .jnum b => a == b
  | .jnan, .jnan => true
  | .jstr a, .jstr b => a == b
  | _, _ => false

/-- String key equality for the drafts whose store keys are strings. -/
def strEq (a b : String) : Bool := a == b

/-- Insertion-ordered map lookup, mirroring `Map.prototype.get`. -/
def mapFind {κ δ : Type} (eq : κ → κ → Bool) (k : κ) : List (κ × δ) → Option δ
  | [] => none
  | (k₁, d₁) :: rest => if eq k k₁ then some d₁ else mapFind eq k rest

/-- Model of `Map.prototype.set`: replaces in place, appends when absent. -/
def mapSet {κ δ : Type} (eq : κ → κ → Bool) (k : κ) (d : δ) :
    List (κ × δ) → List (κ × δ)
  | [] => [(k, d)]
  | (k₁, d₁) :: rest =>
      if eq k k₁ then (k₁, d) :: rest else (k₁, d₁) :: mapSet eq k d rest

theorem mapFind_mapSet {κ δ : Type} (eq : κ → κ → Bool) (k : κ) (d : δ)
    (href : eq k k = true) :
    ∀ st : List (κ × δ), mapFind eq k (mapSet eq k d st) = some d := by
  intro st
  induction st with
  | nil => simp [mapFind, mapSet, href]
  | cons hd tl ih =>
      obtain ⟨k₁, d₁⟩ := hd
      by_cases h : eq k k₁ = true
      · simp [mapFind, mapSet, h]
      · simp [mapFind, mapSet, h, ih]

theorem mapFind_append_self {κ δ : Type} (eq : κ → κ → Bool) (k : κ) (d : δ)
    (href : eq k k = true) :
    ∀ st : List (κ × δ), mapFind eq k st = none →
      mapFind eq k (st ++ [(k, d)]) = some d := by
  intro st
  induction st with
  | nil => intro _; simp [mapFind, href]
  | cons hd tl ih =>
      obtain ⟨k₁, d₁⟩ := hd
      intro h
      by_cases hk : eq k k₁ = true
      · simp [mapFind, hk] at h
      · simp [mapFind, hk] at h ⊢
        exact ih h

/-!
## Shared data model

Timestamps: the drafts store ISO-8601 strings produced from epoch
milliseconds (`new Date(ms).toISOString()` / `new Date().toISOString()`).
`Date.prototype.toISOString` is injective on valid dates, so a timestamp
is modelled by its millisecond value `Tm := Rat`; the wall clock
(`new Date()`) is a parameter `now`, assumed to be a representable date.
-/

abbrev Tm := Rat

/-- Largest epoch-millisecond value a JS `Date` can hold; beyond it the
date is invalid and `toISOString` throws a `RangeError`. -/
def maxDateMs : Rat := 8640000000000000

/-- Model of `new Date(q).toISOString()`: the ms value back, or a `RangeError` for
an invalid date. -/
def dateToIso (q : Rat) : Except JsErr Tm :=
  if -maxDateMs ≤ q ∧ q ≤ maxDateMs then .ok q else .error .rangeError

/-- Message direction. -/
inductive Dir where
  | inbound
  | outbound
deriving DecidableEq, Repr

/-- Device status strings `"open"` / `"closed"`. -/
inductive Status where
  | opened
  | closed
deriving DecidableEq, Repr

/-- Message ids `"sos-" + ts.getTime()`, `"in-" + ts.getTime()`,
`"out-" + Date.now()`. -/
inductive MsgId where
  | sosId (t : Tm)
  | inId (t : Tm)
  | outId (t : Tm)
deriving DecidableEq, Repr

/-- Bounded append shared by the drafts.  `src/server.js` lines 695-703
cap `positions` at 5000 with `push` + `splice(0, length - 5000)`;
`src/unnamed/part_002` lines 654-657 / 671-673 / 714-716 cap at
1000 / 2000 with `push` + `slice(-N)`.  Both idioms keep the newest `cap`
entries, i.e. drop from the front. -/
def pushCap {α : Type} (cap : Nat) (xs : List α) (x : α) : List α :=
  let ys := xs ++ [x]
  if cap < ys.length then ys.drop (ys.length - cap) else ys

/-!
## `src/server.js` second draft: `DevicesStore` (lines 588-799)

JS numbers inside positions are `Option Rat` (`none` is `NaN`, produced
by the `Number` coercion).
-/

/-- A stored position (`src/server.js` lines 683-691). -/
structure Position where
  lat : Option Rat
  lon : Option Rat
  altitude : Option (Option Rat)
  speed : Option (Option Rat)
  course : Option (Option Rat)
  gpsFix : JsVal
  timestamp : Tm

/-- A stored chat message (`src/server.js` lines 721-752). -/
structure Message where
  id : MsgId
  direction : Dir
  text : JsVal
  is_sos : Bool
  timestamp : Tm

/-- The per-device record created by `getOrCreate`
(`src/server.js` lines 595-610). -/
structure Device where
  imei : JsVal
  label : JsVal
  status : Status
  isActiveSos : Bool
  trackingEnabled : Bool
  lastPosition : Option Position
  lastPositionAt : Option Tm
  lastMessageAt : Option Tm
  lastEventAt : Option Tm
  lastSosEventAt : Option Tm
  lastSosAckAt : Option Tm
  closedAt : Option Tm
  messages : List Message
  positions : List Position

/-- The defaults of `getOrCreate` for a fresh imei. -/
def defaultDevice (imei : JsVal) : Device :=
  { imei := imei
    label := imei
    status := .opened
    isActiveSos := false
    trackingEnabled := false
    lastPosition := none
    lastPositionAt := none
    lastMessageAt := none
    lastEventAt := none
    lastSosEventAt := none
    lastSosAckAt := none
    closedAt := none
    messages := []
    positions := [] }

/-- The map `this.devices : Map<imei, device>`; keys are whatever
`evt.imei || evt.Imei` produced (route handlers always pass strings). -/
abbrev Store := List (JsVal × Device)

def storeFind (k : JsVal) (st : Store) : Option Device := mapFind jsKeyEq k st

def storeSet (k : JsVal) (d : Device) (st : Store) : Store := mapSet jsKeyEq k d st

/-- Method `DevicesStore.getOrCreate` (`src/server.js` lines 593-613): insert the
default record when the key is absent (`Map.set` appends at the end),
return the stored record. -/
def getOrCreate (imei : JsVal) (store : Store) : Device × Store :=
  match storeFind imei store with
  | some d => (d, store)
  | none => (defaultDevice imei, store ++ [(imei, defaultDevice imei)])

/-- Ternary `typeof v.k₁ !== "undefined" ? v.k₁ : v.k₂` (the field-variant
ternaries of `_ingestEvent`). -/
def ternUndef (v : JsVal) (k₁ k₂ : String) : JsVal :=
  if (getFD v k₁).isUndefined then getFD v k₂ else getFD v k₁

/-- Resolution of `evt.messageCode` / `evt.MessageCode`
(`src/server.js` lines 707-710). -/
def evtMessageCodeD (evt : JsVal) : JsVal := ternUndef evt "messageCode" "MessageCode"

/-- Chain `evt.freeText || evt.FreeText || ""` (`src/server.js` line 711). -/
def evtFreeTextD (evt : JsVal) : JsVal :=
  jsOr (jsOr (getFD evt "freeText") (getFD evt "FreeText")) (.jstr "")

/-- Raw timestamp pick of `_ingestEvent`
(`typeof evt.timeStamp !== "undefined" ? evt.timeStamp : evt.Timestamp`). -/
def evtTsRaw (evt : JsVal) : JsVal := ternUndef evt "timeStamp" "Timestamp"

/-- Timestamp resolution of `_ingestEvent` (lines 640-651): a positive
number is taken as epoch ms (and `toISOString` may throw on an
unrepresentable date); anything else — including `NaN`, whose `typeof`
is `number` but which fails `> 0` — falls back to the ingestion wall
clock. -/
def tsResolve (now : Tm) (evt : JsVal) : Except JsErr Tm :=
  match evtTsRaw evt with
  | .jnum q => if 0 < q then dateToIso q else .ok now
  | _ => .ok now

/-- Position section of `_ingestEvent` (lines 654-704).  Pure: every
property access is on a non-nullish value and `Number` never throws. -/
def posStep (tsIso : Tm) (evt : JsVal) (dev : Device) : Device :=
  let point := jsOr (jsOr (getFD evt "point") (getFD evt "Point")) (.jobj [])
  let lat := ternUndef point "latitude" "Latitude"
  let lon := ternUndef point "longitude" "Longitude"
  let altitude := ternUndef point "altitude" "Altitude"
  let speed := ternUndef point "speed" "Speed"
  let course := ternUndef point "course" "Course"
  let gpsFix :=
    nullishOr (getFD point "gpsFix")
      (nullishOr (getFD point "gps_fix") (nullishOr (getFD point "GpsFix") .jnull))
  if looseNeNull lat && looseNeNull lon then
    let pos : Position :=
      { lat := jsToNumber lat
        lon := jsToNumber lon
        altitude := if looseNeNull altitude then some (jsToNumber altitude) else none
        speed := if looseNeNull speed then some (jsToNumber speed) else none
        course := if looseNeNull course then some (jsToNumber course) else none
        gpsFix := gpsFix
        timestamp := tsIso }
    { dev with
      lastPosition := some pos
      lastPositionAt := some tsIso
      positions := pushCap 5000 dev.positions pos }
  else dev

/-- Message / SOS section of `_ingestEvent` (lines 706-738): code 7
declares SOS; code 6 without text is tracking-only; any other event with
non-blank text becomes an inbound message with `is_sos: false`.  `trim`
on a truthy non-string `freeText` throws. -/
def msgStep (tsIso : Tm) (evt : JsVal) (dev : Device) : Except JsErr Device :=
  let messageCode := evtMessageCodeD evt
  let freeText := evtFreeTextD evt
  let isTrackingOnly := strictEqNum messageCode 6 && !freeText.truthy
  let isSosEvent := strictEqNum messageCode 7
  if isSosEvent then
    .ok { dev with
          isActiveSos := true
          status := .opened
          lastSosEventAt := some tsIso
          messages := dev.messages ++
            [{ id := .sosId tsIso
               direction := .inbound
               text := jsOr freeText (.jstr "SOS activated")
               is_sos := true
               timestamp := tsIso }]
          lastMessageAt := some tsIso }
  else if isTrackingOnly then .ok dev
  else do
    let trimmed ← jsTrim freeText
    if 0 < trimmed.length then
      .ok { dev with
            messages := dev.messages ++
              [{ id := .inId tsIso
                 direction := .inbound
                 text := freeText
                 is_sos := false
                 timestamp := tsIso }]
            lastMessageAt := some tsIso }
    else .ok dev

/-- Body of `DevicesStore._ingestEvent` from the point where the device record is
in hand (`src/server.js` lines 639-741): stamp `lastEventAt`, then the
position section, then the message/SOS section.  A nullish event value
would already throw on its first property access. -/
def ingestEventDevice (now : Tm) (evt : JsVal) (dev : Device) : Except JsErr Device :=
  if evt.isNullish then .error .typeError
  else do
    let tsIso ← tsResolve now evt
    let dev := { dev with lastEventAt := some tsIso }
    msgStep tsIso evt (posStep tsIso evt dev)

/-- Method `DevicesStore._ingestEvent` (`src/server.js` lines 630-741): resolve
`evt.imei || evt.Imei`; events without a truthy imei are dropped with a
warning; otherwise `getOrCreate`, mutate, `set`. -/
def ingestEventStore (now : Tm) (evt : JsVal) (store : Store) : Except JsErr Store :=
  if evt.isNullish then .error .typeError
  else
    let imei := jsOr (getFD evt "imei") (getFD evt "Imei")
    if !imei.truthy then .ok store
    else do
      let r := getOrCreate imei store
      let dev₁ ← ingestEventDevice now evt r.1
      .ok (storeSet imei dev₁ r.2)

/-- Method `DevicesStore.addOutboundMessage` (`src/server.js` lines 743-756);
the imei comes from the route parameter, hence a string. -/
def addOutboundMessage (now : Tm) (imei : String) (text : JsVal) (isSos : Bool)
    (store : Store) : Store :=
  let r := getOrCreate (.jstr imei) store
  storeSet (.jstr imei)
    { r.1 with
      messages := r.1.messages ++
        [{ id := .outId now
           direction := .outbound
           text := text
           is_sos := isSos
           timestamp := now }]
      lastMessageAt := some now }
    r.2

/-- Method `DevicesStore.ackSos` (`src/server.js` lines 758-765): `null` for an
unknown imei, otherwise clear `isActiveSos` and stamp `lastSosAckAt`. -/
def ackSos (now : Tm) (imei : String) (store : Store) : Option Device × Store :=
  match storeFind (.jstr imei) store with
  | none => (none, store)
  | some d =>
      let d₁ := { d with
                  isActiveSos := false
                  lastSosAckAt := some now }
      (some d₁, storeSet (.jstr imei) d₁ store)

/-- Method `DevicesStore.closeIncident` (`src/server.js` lines 767-777):
`null` for an unknown imei; otherwise close, clear SOS, keep an existing
`lastSosAckAt` (`device.lastSosAckAt || nowIso`), stamp `closedAt`. -/
def closeIncident (now : Tm) (imei : String) (store : Store) : Option Device × Store :=
  match storeFind (.jstr imei) store with
  | none => (none, store)
  | some d =>
      let d₁ := { d with
                  status := .closed
                  isActiveSos := false
                  lastSosAckAt := some (d.lastSosAckAt.getD now)
                  closedAt := some now }
      (some d₁, storeSet (.jstr imei) d₁ store)

/-- Outcome of the external gateway call
(`callIpcInboundMessaging`), abstracted: the route only distinguishes a
resolved promise from a rejected one. -/
inductive GwOutcome where
  | succeeded
  | failed
deriving DecidableEq, Repr

/-- Route `POST /api/garmin/devices/:imei/message` (`src/server.js`
lines 866-915): reject blank text with 400; otherwise record the
outbound message locally first, then call the gateway; a gateway
failure answers 500 but the recorded message is kept. -/
def postDeviceMessage (now : Tm) (imei : String) (reqBody : JsVal)
    (gw : GwOutcome) (store : Store) : Except JsErr (Nat × Store) := do
  let body := jsOr reqBody (.jobj [])
  let text := getFD body "text"
  let isSos := getFD body "is_sos"
  if !text.truthy then .ok (400, store)
  else do
    let trimmed ← jsTrim text
    if trimmed = "" then .ok (400, store)
    else
      let finalText := if isSos.truthy then jsConcat (.jstr "SOS: ") text else text
      let store₁ := addOutboundMessage now imei finalText isSos.truthy store
      match gw with
      | .succeeded => .ok (200, store₁)
      | .failed => .ok (500, store₁)

/-!
## `src/unnamed/part_000`: `upsertDeviceFromIpc` (lines 47-170)

This draft keeps raw payload values in the timestamp slots (`pos.Timestamp
|| pos.Time || ev.Timestamp || ev.EventTime || now`), so its timestamp
fields are `JsVal`; the wall clock ISO string is the parameter `nowIso`.
-/

/-- A position of the part_000 draft (lines 127-132). -/
structure IpcPos where
  lat : Option Rat
  lon : Option Rat
  timestamp : JsVal
  gpsFix : Bool

/-- A message of the part_000 draft (lines 148-155). -/
structure IpcMsg where
  direction : Dir
  text : JsVal
  timestamp : JsVal
  is_sos : Bool

/-- A device record of the part_000 draft (lines 75-88). -/
structure IpcDevice where
  imei : JsVal
  label : JsVal
  status : Status
  isActiveSos : Bool
  lastPosition : Option IpcPos
  lastPositionAt : JsVal
  lastMessageAt : JsVal
  lastEventAt : JsVal
  lastSosEventAt : JsVal
  lastSosAckAt : JsVal
  messages : List IpcMsg
  positions : List IpcPos

/-- The fresh-device literal of part_000 (lines 75-88). -/
def ipcDefault (imei : JsVal) : IpcDevice :=
  { imei := imei
    label := imei
    status := .opened
    isActiveSos := false
    lastPosition := none
    lastPositionAt := .jnull
    lastMessageAt := .jnull
    lastEventAt := .jnull
    lastSosEventAt := .jnull
    lastSosAckAt := .jnull
    messages := []
    positions := [] }

abbrev IpcStore := List (JsVal × IpcDevice)

def ipcFind (k : JsVal) (st : IpcStore) : Option IpcDevice := mapFind jsKeyEq k st

def ipcSet (k : JsVal) (d : IpcDevice) (st : IpcStore) : IpcStore := mapSet jsKeyEq k d st

/-- IMEI detection of part_000 (lines 56-63): the ordered candidate chain
`ev.DeviceImei || ev.deviceImei || ev?.Device?.Imei || ev?.Device?.IMEI ||
body.DeviceImei || body.Imei || null`.  The two unguarded accesses throw
on a nullish receiver. -/
def resolveIpcImei (body ev : JsVal) : Except JsErr JsVal :=
  if ev.isNullish then .error .typeError
  else
    let a := getFD ev "DeviceImei"
    if a.truthy then .ok a
    else
      let b := getFD ev "deviceImei"
      if b.truthy then .ok b
      else
        let c := optChain ev "Device" "Imei"
        if c.truthy then .ok c
        else
          let d := optChain ev "Device" "IMEI"
          if d.truthy then .ok d
          else if body.isNullish then .error .typeError
          else
            let e := getFD body "DeviceImei"
            if e.truthy then .ok e
            else
              let f := getFD body "Imei"
              if f.truthy then .ok f else .ok .jnull

/-- The store key part_000 actually uses for an event: the resolved IMEI,
or the `"VIRTUAL-TEST"` sentinel when nothing resolved truthy
(lines 65-71). -/
def ipcKeyOf (body ev : JsVal) : Except JsErr JsVal :=
  (resolveIpcImei body ev).map (fun i => if i.truthy then i else .jstr "VIRTUAL-TEST")

/-- The body of the `events.forEach` of `upsertDeviceFromIpc`
(lines 54-169): resolve the key, fetch-or-default the record, stamp
`lastEventAt`, SOS detection from `EventType`/`Type`, best-effort
position parsing, message parsing (whose `Direction.toLowerCase` can
throw), then `devicesStore.set`. -/
def upsertIpcEvent (nowIso : String) (body ev : JsVal) (st : IpcStore) :
    Except JsErr IpcStore := do
  let imei ← ipcKeyOf body ev
  let existing := (ipcFind imei st).getD (ipcDefault imei)
  let existing := { existing with lastEventAt := JsVal.jstr nowIso }
  let type := jsOr (jsOr (getFD ev "EventType") (getFD ev "Type")) (.jstr "")
  let typeStr := (match type with | .jstr s => s | _ => "").toLower
  let isSosEvent := containsSub typeStr "sos"
  let existing :=
    if isSosEvent then
      { existing with
        isActiveSos := true
        lastSosEventAt := JsVal.jstr nowIso }
    else existing
  let pos := jsOr (jsOr (getFD ev "Position") (getFD ev "PositionInfo"))
               (jsOr (getFD ev "Location") .jnull)
  let existing :=
    if pos.truthy then
      let lat := nullishOr (getFD pos "Latitude")
        (nullishOr (getFD pos "latitude")
          (nullishOr (getFD pos "Lat") (nullishOr (getFD pos "lat") .jnull)))
      let lon := nullishOr (getFD pos "Longitude")
        (nullishOr (getFD pos "longitude")
          (nullishOr (getFD pos "Lon") (nullishOr (getFD pos "lon") .jnull)))
      if looseNeNull lat && looseNeNull lon then
        let ts := jsOr (getFD pos "Timestamp")
          (jsOr (getFD pos "Time")
            (jsOr (getFD ev "Timestamp")
              (jsOr (getFD ev "EventTime") (.jstr nowIso))))
        let p : IpcPos :=
          { lat := jsToNumber lat
            lon := jsToNumber lon
            timestamp := ts
            gpsFix := true }
        { existing with
          lastPosition := some p
          lastPositionAt := ts
          positions := existing.positions ++ [p] }
      else existing
    else existing
  let mtest := jsOr (jsOr (getFD ev "MessageText") (getFD ev "Message")) (getFD ev "Text")
  let existing ←
    if mtest.truthy then do
      let dirRaw := jsOr (getFD ev "Direction") (.jstr "")
      let dirStr ← jsToLowerE dirRaw
      let ts := jsOr (getFD ev "Timestamp")
        (jsOr (getFD ev "MessageTime") (jsOr (getFD ev "EventTime") (.jstr nowIso)))
      let msg : IpcMsg :=
        { direction := if containsSub dirStr "out" then .outbound else .inbound
          text := mtest
          timestamp := ts
          is_sos := isSosEvent }
      pure { existing with
             lastMessageAt := ts
             messages := existing.messages ++ [msg] }
    else pure existing
  pure (ipcSet imei existing st)

/-- Function `upsertDeviceFromIpc` (part_000 lines 47-170):
`Array.isArray(body?.Events) ? body.Events : []`, then the forEach.  A
throw inside the loop aborts the remaining events of the batch. -/
def upsertDeviceFromIpc (nowIso : String) (body : JsVal) (st : IpcStore) :
    Except JsErr IpcStore :=
  let events :=
    if body.isNullish then []
    else match getFD body "Events" with
      | .jarr evs => evs
      | _ => []
  events.foldlM (fun acc ev => upsertIpcEvent nowIso body ev acc) st

/-!
## `src/unnamed/part_002` second draft: `upsertFromOutboundEvent`
(lines 581-722)

This draft validates positions (`hasValidPosition`, lines 625-631):
numeric, non-`NaN` coordinates and not the `(0,0)` null island.  Its
`is_sos` field stores the JS numbers `1` / `0`, and each event's
timestamp argument `receivedAtIso` comes from
`parseGarminTimestamp(evt.timeStamp)` at the call site.
-/

/-- A position of the part_002 draft (lines 641-650). -/
structure P2Position where
  lat : Rat
  lon : Rat
  altitude : JsVal
  gpsFix : JsVal
  speed : JsVal
  course : JsVal
  timestamp : Tm
  status : JsVal

/-- A message of the part_002 draft (lines 662-668 / 701-707). -/
structure P2Message where
  direction : Dir
  text : String
  timestamp : Tm
  is_sos : Nat
  rawCode : JsVal

/-- A device record of the part_002 draft (lines 588-604). -/
structure P2Device where
  imei : String
  label : JsVal
  status : Status
  isActiveSos : Bool
  lastEventAt : Option Tm
  lastPositionAt : Option Tm
  lastMessageAt : Option Tm
  lastSosEventAt : Option Tm
  lastSosAckAt : Option Tm
  closedAt : Option Tm
  lastPosition : Option P2Position
  positions : List P2Position
  messages : List P2Message

/-- Defaults of `_ensureDevice` of part_002 (lines 586-608): `label` starts
as `null` in this draft. -/
def p2Default (imei : String) : P2Device :=
  { imei := imei
    label := .jnull
    status := .opened
    isActiveSos := false
    lastEventAt := none
    lastPositionAt := none
    lastMessageAt := none
    lastSosEventAt := none
    lastSosAckAt := none
    closedAt := none
    lastPosition := none
    positions := []
    messages := [] }

abbrev P2Store := List (String × P2Device)

/-- Expression `evt.point` defaulted to an empty object, part_002 line 622. -/
def p2Point (evt : JsVal) : JsVal := jsOr (getFD evt "point") (.jobj [])

/-- The per-device body of `upsertFromOutboundEvent` (lines 617-679),
after the IMEI has been resolved: stamp `lastEventAt`, trim the free
text (a truthy non-string `freeText` throws), code 7 declares/updates
SOS, validated positions are appended (cap 1000), non-empty text is
appended as an inbound message (cap 2000). -/
def upsertOutboundDevice (t : Tm) (evt : JsVal) (dev : P2Device) :
    Except JsErr P2Device :=
  if evt.isNullish then .error .typeError
  else do
    let dev := { dev with lastEventAt := some t }
    let code := getFD evt "messageCode"
    let text ← jsTrim (jsOr (getFD evt "freeText") (.jstr ""))
    let point := p2Point evt
    let status := jsOr (getFD evt "status") (.jobj [])
    let dev :=
      if strictEqNum code 7 then
        { dev with
          isActiveSos := true
          lastSosEventAt := some t }
      else dev
    let dev :=
      match getFD point "latitude", getFD point "longitude" with
      | .jnum a, .jnum b =>
          if point.truthy && !(a == 0 && b == 0) then
            let pos : P2Position :=
              { lat := a
                lon := b
                altitude := nullishOr (getFD point "altitude") .jnull
                gpsFix := nullishOr (getFD point "gpsFix") .jnull
                speed := nullishOr (getFD point "speed") .jnull
                course := nullishOr (getFD point "course") .jnull
                timestamp := t
                status := status }
            { dev with
              lastPosition := some pos
              lastPositionAt := some t
              positions := pushCap 1000 dev.positions pos }
          else dev
      | _, _ => dev
    let dev :=
      if text ≠ "" then
        { dev with
          messages := pushCap 2000 dev.messages
            { direction := .inbound
              text := text
              timestamp := t
              is_sos := if strictEqNum code 7 then 1 else 0
              rawCode := code }
          lastMessageAt := some t }
      else dev
    pure dev

/-- Method `upsertFromOutboundEvent` (part_002 lines 610-680): coerce and trim
`evt.imei`; an empty result is dropped with a warning (`return null`);
otherwise `_ensureDevice` + the per-device body above.  The in-place JS
mutation is modelled by writing the updated record back. -/
def upsertFromOutboundEvent (t : Tm) (evt : JsVal) (store : P2Store) :
    Except JsErr (Option P2Device × P2Store) :=
  if evt.isNullish then .error .typeError
  else
    let imei := jsStrTrim (jsToString (jsOr (getFD evt "imei") (.jstr "")))
    if imei = "" then .ok (none, store)
    else do
      let dev₀ := (mapFind strEq imei store).getD (p2Default imei)
      let dev ← upsertOutboundDevice t evt dev₀
      .ok (some dev, mapSet strEq imei dev store)

/-!
## Helper lemmas
-/

theorem jsKeyEq_refl_str (s : String) : jsKeyEq (.jstr s) (.jstr s) = true := by
  simp [jsKeyEq]

theorem strEq_refl (s : String) : strEq s s = true := by
  simp [strEq]

theorem storeFind_storeSet (k : JsVal) (d : Device) (href : jsKeyEq k k = true)
    (st : Store) : storeFind k (storeSet k d st) = some d :=
  mapFind_mapSet jsKeyEq k d href st

/-!
## Claims
-/

/-- C5: inserting into a log already holding `cap` entries evicts exactly
the oldest entry, the length stays `cap`, and the survivors keep their
oldest-first order.  `pushCap` is the shared bounded-append of
`src/server.js` lines 695-703 (positions, cap 5000) and
`src/unnamed/part_002` lines 654-657, 671-673, 714-716 (positions cap
1000, messages cap 2000). -/
theorem c5_log_eviction {α : Type} (cap : Nat) (xs : List α) (x : α)
    (hcap : 0 < cap) (hlen : xs.length = cap) :
    pushCap cap xs x = xs.drop 1 ++ [x] ∧ (pushCap cap xs x).length = cap := by
  have hlt : cap < (xs ++ [x]).length := by
    simp [List.length_append, hlen]
  have hdrop : (xs ++ [x]).length - cap = 1 := by
    simp [List.length_append, hlen]
  have hx : 1 ≤ xs.length := by omega
  constructor
  · simp only [pushCap, if_pos hlt, hdrop]
    exact List.drop_append_of_le_length hx
  · simp [pushCap, if_pos hlt, hdrop, List.length_append, hlen]

/-- C5 witness at cap 3. -/
theorem c5_log_eviction_w :
    pushCap 3 [10, 20, 30] 40 = [20, 30, 40] ∧
      (pushCap 3 [10, 20, 30] (40 : Nat)).length = 3 :=
  c5_log_eviction 3 [10, 20, 30] 40 (by decide) (by decide)

/-- C8: `getOrCreate` (`src/server.js` lines 593-613) is idempotent —
the second call returns the same record and leaves the store unchanged —
and a first creation yields the defaults: status `open`, no active SOS,
empty position and message logs. -/
theorem c8_getOrCreate_idempotent (id : String) (store : Store) :
    (getOrCreate (.jstr id) (getOrCreate (.jstr id) store).2).1
        = (getOrCreate (.jstr id) store).1 ∧
    (getOrCreate (.jstr id) (getOrCreate (.jstr id) store).2).2
        = (getOrCreate (.jstr id) store).2 ∧
    (storeFind (.jstr id) store = none →
      (getOrCreate (.jstr id) store).1 = defaultDevice (.jstr id) ∧
      (getOrCreate (.jstr id) store).1.status = .opened ∧
      (getOrCreate (.jstr id) store).1.isActiveSos = false ∧
      (getOrCreate (.jstr id) store).1.positions = [] ∧
      (getOrCreate (.jstr id) store).1.messages = []) := by
  cases h : storeFind (.jstr id) store with
  | some d =>
      refine ⟨?_, ?_, ?_⟩
      · simp [getOrCreate, h]
      · simp [getOrCreate, h]
      · intro hn
        exact Option.noConfusion hn
  | none =>
      have hfind : storeFind (.jstr id)
          (store ++ [(.jstr id, defaultDevice (.jstr id))])
            = some (defaultDevice (.jstr id)) :=
        mapFind_append_self jsKeyEq (.jstr id) (defaultDevice (.jstr id))
          (jsKeyEq_refl_str id) store h
      refine ⟨?_, ?_, ?_⟩
      · simp only [getOrCreate, h, hfind]
      · simp only [getOrCreate, h, hfind]
      · intro _
        simp [getOrCreate, h, defaultDevice]

/-- C8 witness: fresh id in the empty store. -/
theorem c8_getOrCreate_idempotent_w :
    (getOrCreate (.jstr "300234010961140")
        (getOrCreate (.jstr "300234010961140") ([] : Store)).2).1
      = (getOrCreate (.jstr "300234010961140") ([] : Store)).1 ∧
    (getOrCreate (.jstr "300234010961140")
        (getOrCreate (.jstr "300234010961140") ([] : Store)).2).2
      = (getOrCreate (.jstr "300234010961140") ([] : Store)).2 ∧
    (storeFind (.jstr "300234010961140") ([] : Store) = none →
      (getOrCreate (.jstr "300234010961140") ([] : Store)).1
          = defaultDevice (.jstr "300234010961140") ∧
      (getOrCreate (.jstr "300234010961140") ([] : Store)).1.status = .opened ∧
      (getOrCreate (.jstr "300234010961140") ([] : Store)).1.isActiveSos = false ∧
      (getOrCreate (.jstr "300234010961140") ([] : Store)).1.positions = [] ∧
      (getOrCreate (.jstr "300234010961140") ([] : Store)).1.messages = []) :=
  c8_getOrCreate_idempotent "300234010961140" []

/-- C9: for an existing asset, `ackSos` (`src/server.js` lines 758-765)
clears `isActiveSos` and stamps `lastSosAckAt` with the acknowledgement
time, both in the returned record and in the store — acknowledgement
itself clears the active-SOS flag in this implementation. -/
theorem c9_ackSos_clears (now : Tm) (imei : String) (store : Store) (d : Device)
    (h : storeFind (.jstr imei) store = some d) :
    (ackSos now imei store).1
        = some { d with isActiveSos := false, lastSosAckAt := some now } ∧
    storeFind (.jstr imei) (ackSos now imei store).2
        = some { d with isActiveSos := false, lastSosAckAt := some now } := by
  constructor
  · simp [ackSos, h]
  · simp only [ackSos, h]
    exact storeFind_storeSet _ _ (jsKeyEq_refl_str imei) store

/-- C9 witness: a store holding one SOS-active device. -/
theorem c9_ackSos_clears_w :
    (ackSos 1700 "A" [(.jstr "A",
        { defaultDevice (.jstr "A") with isActiveSos := true })]).1
      = some { { defaultDevice (.jstr "A") with isActiveSos := true } with
               isActiveSos := false
               lastSosAckAt := some 1700 } ∧
    storeFind (.jstr "A") (ackSos 1700 "A" [(.jstr "A",
        { defaultDevice (.jstr "A") with isActiveSos := true })]).2
      = some { { defaultDevice (.jstr "A") with isActiveSos := true } with
               isActiveSos := false
               lastSosAckAt := some 1700 } :=
  c9_ackSos_clears 1700 "A" _ _ (by simp [storeFind, mapFind, jsKeyEq])

/-- C10: for an id absent from the store, `ackSos`
(`src/server.js` lines 758-765) and `closeIncident` (lines 767-777)
return `null` (surfaced as 404) and leave the store untouched — neither
creates the asset lazily. -/
theorem c10_ack_close_not_found (now : Tm) (imei : String) (store : Store)
    (h : storeFind (.jstr imei) store = none) :
    ackSos now imei store = (none, store) ∧
    closeIncident now imei store = (none, store) := by
  constructor <;> simp [ackSos, closeIncident, h]

/-- C10 witness: unknown imei in a store holding a different device. -/
theorem c10_ack_close_not_found_w :
    ackSos 1700 "B" [(.jstr "A", defaultDevice (.jstr "A"))]
        = (none, [(.jstr "A", defaultDevice (.jstr "A"))]) ∧
    closeIncident 1700 "B" [(.jstr "A", defaultDevice (.jstr "A"))]
        = (none, [(.jstr "A", defaultDevice (.jstr "A"))]) :=
  c10_ack_close_not_found 1700 "B" _ (by simp [storeFind, mapFind, jsKeyEq])

/-- C6: when the outbound gateway call fails, the
`POST /api/garmin/devices/:imei/message` route (`src/server.js`
lines 866-915) still holds the outbound `MessageEntry` in the asset's
message log — `addOutboundMessage` runs before the gateway call and is
not rolled back — and the caller receives a failure (HTTP 500). -/
theorem c6_outbound_kept_on_gateway_failure
    (now : Tm) (imei : String) (reqBody : JsVal) (store : Store) (s : String)
    (htext : getFD (jsOr reqBody (.jobj [])) "text" = .jstr s)
    (hs : s ≠ "") (htrim : jsStrTrim s ≠ "") :
    ∃ st₁ d m,
      postDeviceMessage now imei reqBody .failed store = .ok (500, st₁) ∧
      storeFind (.jstr imei) st₁ = some d ∧
      d.messages.getLast? = some m ∧
      m.direction = .outbound ∧
      m.timestamp = now := by
  have hsb : (s == "") = false := by simp [hs]
  have hrun : postDeviceMessage now imei reqBody .failed store =
      .ok (500, addOutboundMessage now imei
        (if (getFD (jsOr reqBody (.jobj [])) "is_sos").truthy then
            jsConcat (.jstr "SOS: ") (.jstr s) else .jstr s)
        (getFD (jsOr reqBody (.jobj [])) "is_sos").truthy store) := by
    simp only [postDeviceMessage, htext]
    simp [JsVal.truthy, hsb, jsTrim, htrim, bind, Except.bind]
  refine ⟨addOutboundMessage now imei
      (if (getFD (jsOr reqBody (.jobj [])) "is_sos").truthy then
          jsConcat (.jstr "SOS: ") (.jstr s) else .jstr s)
      (getFD (jsOr reqBody (.jobj [])) "is_sos").truthy store,
    { (getOrCreate (.jstr imei) store).1 with
      messages := (getOrCreate (.jstr imei) store).1.messages ++
        [{ id := .outId now
           direction := .outbound
           text := if (getFD (jsOr reqBody (.jobj [])) "is_sos").truthy then
               jsConcat (.jstr "SOS: ") (.jstr s) else .jstr s
           is_sos := (getFD (jsOr reqBody (.jobj [])) "is_sos").truthy
           timestamp := now }]
      lastMessageAt := some now },
    { id := .outId now
      direction := .outbound
      text := if (getFD (jsOr reqBody (.jobj [])) "is_sos").truthy then
          jsConcat (.jstr "SOS: ") (.jstr s) else .jstr s
      is_sos := (getFD (jsOr reqBody (.jobj [])) "is_sos").truthy
      timestamp := now },
    hrun, ?_, ?_, rfl, rfl⟩
  · simp only [addOutboundMessage]
    exact storeFind_storeSet _ _ (jsKeyEq_refl_str imei) _
  · exact List.getLast?_concat _

/-- The request body of the C6 witness scenario. -/
def c6ReqBody : JsVal :=
  .jobj [("text", .jstr "status check"), ("is_sos", .jbool false)]

/-- C6 witness: `recordAndSend("300234010961140", "status check", false)`
with a failing gateway. -/
theorem c6_outbound_kept_on_gateway_failure_w :
    ∃ st₁ d m,
      postDeviceMessage 1700 "300234010961140" c6ReqBody .failed ([] : Store)
          = .ok (500, st₁) ∧
      storeFind (.jstr "300234010961140") st₁ = some d ∧
      d.messages.getLast? = some m ∧
      m.direction = .outbound ∧
      m.timestamp = 1700 :=
  c6_outbound_kept_on_gateway_failure 1700 "300234010961140" c6ReqBody []
    "status check" rfl (by decide) (by decide)

/-- C3 counterexample event: no identifier field resolves. -/
def c3CexEvt : JsVal := .jobj [("messageCode", .jnum 0), ("freeText", .jstr "hello")]

/-- C3 counterexample: in `_ingestEvent` of `src/server.js`
(lines 630-636), an event whose `evt.imei || evt.Imei` chain resolves
falsy is dropped with a warning — ingesting it into the empty store
leaves the store empty, so no `"VIRTUAL-TEST"` sentinel asset (nor any
asset) is created, contradicting the claim that identifier-less events
are attributed to the sentinel rather than dropped. -/
theorem c3_sentinel_asset_cex :
    (jsOr (getFD c3CexEvt "imei") (getFD c3CexEvt "Imei")).truthy = false ∧
    ingestEventStore 50 c3CexEvt ([] : Store) = .ok [] := ⟨rfl, rfl⟩

/-- C3 (amended): in `upsertDeviceFromIpc` of `src/unnamed/part_000`
(lines 55-71) — the one draft with a sentinel — an inbound event none of
whose device-identifier fields resolves to a non-empty (truthy) value is
keyed by the fixed sentinel `"VIRTUAL-TEST"`, so all identifier-less
events of a batch resolve to that one sentinel asset, and a successfully
processed identifier-less event leaves the sentinel asset present in the
store.  The `_ingestEvent` path of `src/server.js` instead drops such
events (see the counterexample). -/
theorem c3_sentinel_asset (body ev v : JsVal)
    (hres : resolveIpcImei body ev = .ok v) (hv : v.truthy = false) :
    ipcKeyOf body ev = .ok (.jstr "VIRTUAL-TEST") ∧
    ∀ (nowIso : String) (st st₁ : IpcStore),
      upsertIpcEvent nowIso body ev st = .ok st₁ →
      (ipcFind (.jstr "VIRTUAL-TEST") st₁).isSome = true := by
  have hkey : ipcKeyOf body ev = .ok (.jstr "VIRTUAL-TEST") := by
    simp [ipcKeyOf, hres, Except.map, hv]
  refine ⟨hkey, ?_⟩
  intro nowIso st st₁ h
  simp only [upsertIpcEvent, hkey, bind, Except.bind] at h
  split at h
  · cases hjl : jsToLowerE (jsOr (getFD ev "Direction") (.jstr "")) with
    | error e =>
        rw [hjl] at h
        simp [bind, Except.bind, pure, Except.pure] at h
    | ok dirStr =>
        rw [hjl] at h
        simp only [bind, Except.bind, pure, Except.pure, Except.ok.injEq] at h
        rw [← h]
        simp only [ipcFind, ipcSet]
        rw [mapFind_mapSet jsKeyEq _ _ (jsKeyEq_refl_str "VIRTUAL-TEST")]
        rfl
  · simp only [pure, Except.pure, Except.ok.injEq] at h
    rw [← h]
    simp only [ipcFind, ipcSet]
    rw [mapFind_mapSet jsKeyEq _ _ (jsKeyEq_refl_str "VIRTUAL-TEST")]
    rfl

/-- C3 witness: an event and a batch body with no identifier fields. -/
def c3Body : JsVal := .jobj []

/-- C3 witness event: no identifier field at all. -/
def c3Ev : JsVal := .jobj [("MessageText", .jstr "ping")]

/-- Store produced by the C3 witness run. -/
def c3St : IpcStore :=
  match upsertIpcEvent "2024-01-01T00:00:00.000Z" c3Body c3Ev [] with
  | .ok st => st
  | .error _ => []

/-- C3 witness: the identifier-less event keys to `"VIRTUAL-TEST"` and the
sentinel asset exists after processing. -/
theorem c3_sentinel_asset_w :
    ipcKeyOf c3Body c3Ev = .ok (.jstr "VIRTUAL-TEST") ∧
    (ipcFind (.jstr "VIRTUAL-TEST") c3St).isSome = true :=
  ⟨(c3_sentinel_asset c3Body c3Ev .jnull rfl rfl).1,
   (c3_sentinel_asset c3Body c3Ev .jnull rfl rfl).2
     "2024-01-01T00:00:00.000Z" [] c3St rfl⟩

/-- The position section of `_ingestEvent` never touches the message log
or the SOS fields. -/
theorem posStep_fields (t : Tm) (evt : JsVal) (dev : Device) :
    (posStep t evt dev).messages = dev.messages ∧
    (posStep t evt dev).isActiveSos = dev.isActiveSos ∧
    (posStep t evt dev).lastSosEventAt = dev.lastSosEventAt := by
  simp only [posStep]
  split <;> exact ⟨rfl, rfl, rfl⟩

/-- C2 counterexample event: a position with `lat = 0, lon = 0`. -/
def c2CexEvt : JsVal :=
  .jobj [("imei", .jstr "A"), ("messageCode", .jnum 0), ("timeStamp", .jnum 100),
         ("point", .jobj [("latitude", .jnum 0), ("longitude", .jnum 0)])]

/-- C2 counterexample: `_ingestEvent` of `src/server.js` (lines 682-704)
only null-checks coordinates, so the `(0,0)` position is accepted — the
asset's `lastPosition` changes from `none` to the null-island sample,
contradicting the claim that it stays unchanged. -/
theorem c2_null_island_cex :
    (ingestEventDevice 50 c2CexEvt (defaultDevice (.jstr "A"))).map
        (fun d => d.lastPosition.map (fun p => (p.lat, p.lon)))
      = .ok (some (some 0, some 0)) ∧
    (defaultDevice (.jstr "A")).lastPosition = none := ⟨rfl, rfl⟩

/-- C2 (amended): in `upsertFromOutboundEvent` of `src/unnamed/part_002`
(lines 625-631), an event whose position has `lat = 0` and `lon = 0`
fails `hasValidPosition`, so `lastPosition` and the position log are
unchanged from their prior values. -/
theorem c2_null_island_amended (t : Tm) (evt : JsVal) (dev d₁ : P2Device)
    (hlat : getFD (p2Point evt) "latitude" = .jnum 0)
    (hlon : getFD (p2Point evt) "longitude" = .jnum 0)
    (h : upsertOutboundDevice t evt dev = .ok d₁) :
    d₁.lastPosition = dev.lastPosition ∧ d₁.positions = dev.positions := by
  by_cases hn : evt.isNullish = true
  · rw [upsertOutboundDevice, if_pos hn] at h
    exact Except.noConfusion h
  · rw [upsertOutboundDevice, if_neg hn] at h
    cases htr : jsTrim (jsOr (getFD evt "freeText") (.jstr "")) with
    | error e =>
        rw [htr] at h
        simp [bind, Except.bind] at h
    | ok text =>
        rw [htr] at h
        simp only [bind, Except.bind, pure, Except.pure, Except.ok.injEq] at h
        rw [hlat, hlon] at h
        simp only [beq_self_eq_true, Bool.and_self, Bool.not_true, Bool.and_false,
          Bool.false_eq_true, if_false] at h
        rw [← h]
        constructor
        · split <;> split <;> rfl
        · split <;> split <;> rfl

/-- C2 witness event: a `(0,0)` position. -/
def c2WEvt : JsVal :=
  .jobj [("imei", .jstr "A"), ("messageCode", .jnum 0),
         ("point", .jobj [("latitude", .jnum 0), ("longitude", .jnum 0)])]

/-- C2 witness prior position. -/
def c2WPrior : P2Position :=
  { lat := 32, lon := 34, altitude := .jnull, gpsFix := .jnull, speed := .jnull,
    course := .jnull, timestamp := 10, status := .jobj [] }

/-- C2 witness prior device: already holds a position. -/
def c2WDev : P2Device :=
  { p2Default "A" with lastPosition := some c2WPrior, positions := [c2WPrior] }

/-- C2 witness run result. -/
def c2WDev1 : P2Device :=
  match upsertOutboundDevice 50 c2WEvt c2WDev with
  | .ok d => d
  | .error _ => c2WDev

/-- C2 witness: the `(0,0)` event leaves the prior position untouched in
the part_002 path. -/
theorem c2_null_island_amended_w :
    c2WDev1.lastPosition = c2WDev.lastPosition ∧
    c2WDev1.positions = c2WDev.positions :=
  c2_null_island_amended 50 c2WEvt c2WDev c2WDev1 rfl rfl rfl

/-- C7 counterexample device: an asset with an active SOS. -/
def c7CexDev : Device := { defaultDevice (.jstr "A") with isActiveSos := true }

/-- C7 counterexample event: an ordinary free-text message (code 2) while
the SOS is active. -/
def c7CexEvt : JsVal :=
  .jobj [("imei", .jstr "A"), ("messageCode", .jnum 2), ("timeStamp", .jnum 100),
         ("freeText", .jstr "need assistance")]

/-- C7 counterexample: while `isActiveSos` is `true`, a code-2 free-text
event appends an inbound message with `is_sos = false`
(`src/server.js` lines 729-738) — not the asset's current `isActiveSos`
as the claim states. -/
theorem c7_inbound_issos_cex :
    (ingestEventDevice 50 c7CexEvt c7CexDev).map
        (fun d => (d.isActiveSos, d.messages.map (fun m => (m.direction, m.is_sos))))
      = .ok (true, [(Dir.inbound, false)]) := rfl

/-- C7 (amended): for free-text / canned-text events (codes 2, 3, 3099)
with non-blank text, `_ingestEvent` appends an inbound `MessageEntry`
whose `is_sos` is always `false`, regardless of the asset's current
`isActiveSos`. -/
theorem c7_inbound_issos_amended (now : Tm) (evt : JsVal) (dev d₁ : Device)
    (c : Rat) (s : String)
    (hc : evtMessageCodeD evt = .jnum c) (hcm : c = 2 ∨ c = 3 ∨ c = 3099)
    (hs : evtFreeTextD evt = .jstr s) (hlen : 0 < (jsStrTrim s).length)
    (h : ingestEventDevice now evt dev = .ok d₁) :
    ∃ m, d₁.messages = dev.messages ++ [m] ∧ m.is_sos = false ∧
      m.direction = .inbound ∧ m.text = .jstr s := by
  by_cases hn : evt.isNullish = true
  · rw [ingestEventDevice, if_pos hn] at h
    exact Except.noConfusion h
  · rw [ingestEventDevice, if_neg hn] at h
    cases hts : tsResolve now evt with
    | error e =>
        rw [hts] at h
        simp [bind, Except.bind] at h
    | ok tv =>
        rw [hts] at h
        simp only [bind, Except.bind] at h
        have h7 : strictEqNum (evtMessageCodeD evt) 7 = false := by
          rw [hc]; rcases hcm with rfl | rfl | rfl <;> decide
        have h6 : strictEqNum (evtMessageCodeD evt) 6 = false := by
          rw [hc]; rcases hcm with rfl | rfl | rfl <;> decide
        simp only [msgStep, h7, h6, hs, Bool.false_and, Bool.false_eq_true, if_false,
          jsTrim, bind, Except.bind, hlen, if_true, Except.ok.injEq] at h
        refine ⟨{ id := .inId tv, direction := .inbound, text := .jstr s,
                  is_sos := false, timestamp := tv }, ?_, rfl, rfl, rfl⟩
        rw [← h]
        show (posStep tv evt { dev with lastEventAt := some tv }).messages ++ _
            = dev.messages ++ _
        rw [(posStep_fields tv evt { dev with lastEventAt := some tv }).1]

/-- C7 witness event: code-2 free text. -/
def c7WEvt : JsVal :=
  .jobj [("imei", .jstr "A"), ("messageCode", .jnum 2), ("timeStamp", .jnum 100),
         ("freeText", .jstr "hello")]

/-- C7 witness run result. -/
def c7WDev1 : Device :=
  match ingestEventDevice 50 c7WEvt (defaultDevice (.jstr "A")) with
  | .ok d => d
  | .error _ => defaultDevice (.jstr "A")

/-- C7 witness: a concrete code-2 event appends one inbound message with
`is_sos = false`. -/
theorem c7_inbound_issos_amended_w :
    ∃ m, c7WDev1.messages = (defaultDevice (.jstr "A")).messages ++ [m] ∧
      m.is_sos = false ∧ m.direction = .inbound ∧ m.text = .jstr "hello" :=
  c7_inbound_issos_amended 50 c7WEvt (defaultDevice (.jstr "A")) c7WDev1 2 "hello"
    rfl (Or.inl rfl) rfl (by decide) rfl

/-- Whether an `Except` result is a thrown exception. -/
def isThrow {α : Type} : Except JsErr α → Bool
  | .error _ => true
  | .ok _ => false

/-- C4 counterexample event: a truthy non-string `freeText` (the number
5). -/
def c4BadEvt : JsVal :=
  .jobj [("imei", .jstr "X"), ("messageCode", .jnum 1), ("freeText", .jnum 5)]

/-- C4 counterexample: ingesting an event whose `freeText` is a truthy
non-string throws a `TypeError` (`freeText.trim()` at
`src/server.js` line 729) — normalization/ingestion is not total. -/
theorem c4_ingest_total_cex :
    ingestEventStore 50 c4BadEvt [] = .error .typeError := rfl

/-- The resolved free text is a string — the only way the later
`freeText.trim()` can succeed (the `||`-chain otherwise yields a truthy
non-string). -/
def evtFreeTextOk (evt : JsVal) : Bool := (evtFreeTextD evt).isStr

/-- A positive numeric raw timestamp must be a representable date,
otherwise `toISOString` throws. -/
def evtTsOk (evt : JsVal) : Bool :=
  match evtTsRaw evt with
  | .jnum q => if 0 < q then decide (q ≤ maxDateMs) else true
  | _ => true

theorem tsResolve_isOk (now : Tm) (evt : JsVal) (hts : evtTsOk evt = true) :
    ∃ tv, tsResolve now evt = .ok tv := by
  unfold evtTsOk at hts
  unfold tsResolve
  cases hr : evtTsRaw evt
  case jnum q =>
    rw [hr] at hts
    replace hts : (if 0 < q then decide (q ≤ maxDateMs) else true) = true := hts
    by_cases hq : 0 < q
    · rw [if_pos hq] at hts
      have hle : q ≤ maxDateMs := of_decide_eq_true hts
      refine ⟨q, ?_⟩
      show (if 0 < q then dateToIso q else .ok now) = .ok q
      rw [if_pos hq, dateToIso, if_pos]
      exact ⟨le_trans (by norm_num [maxDateMs]) (le_of_lt hq), hle⟩
    · refine ⟨now, ?_⟩
      show (if 0 < q then dateToIso q else .ok now) = .ok now
      rw [if_neg hq]
  all_goals exact ⟨now, rfl⟩

theorem isStr_exists (v : JsVal) (h : v.isStr = true) : ∃ s, v = .jstr s := by
  cases v
  case jstr s => exact ⟨s, rfl⟩
  all_goals exact Bool.noConfusion h

theorem msgStep_isOk (t : Tm) (evt : JsVal) (dev : Device)
    (hft : evtFreeTextOk evt = true) :
    ∃ d₁, msgStep t evt dev = .ok d₁ := by
  unfold evtFreeTextOk at hft
  simp only [msgStep]
  by_cases h7 : strictEqNum (evtMessageCodeD evt) 7 = true
  · rw [if_pos h7]; exact ⟨_, rfl⟩
  · rw [if_neg h7]
    by_cases h6 : (strictEqNum (evtMessageCodeD evt) 6
        && !(evtFreeTextD evt).truthy) = true
    · rw [if_pos h6]; exact ⟨dev, rfl⟩
    · rw [if_neg h6]
      obtain ⟨s, hf⟩ := isStr_exists _ hft
      rw [hf]
      simp only [jsTrim, bind, Except.bind]
      split
      · exact ⟨_, rfl⟩
      · exact ⟨dev, rfl⟩

theorem ingestEventDevice_isOk (now : Tm) (evt : JsVal) (dev : Device)
    (hn : evt.isNullish = false) (hft : evtFreeTextOk evt = true)
    (hts : evtTsOk evt = true) :
    ∃ d₁, ingestEventDevice now evt dev = .ok d₁ := by
  obtain ⟨tv, htv⟩ := tsResolve_isOk now evt hts
  obtain ⟨d₁, hd₁⟩ :=
    msgStep_isOk tv evt (posStep tv evt { dev with lastEventAt := some tv }) hft
  refine ⟨d₁, ?_⟩
  rw [ingestEventDevice, if_neg (by simp [hn]), htv]
  exact hd₁

/-- C4 (amended): ingestion of a single raw event payload never throws
provided the resolved free-text value is a string (or absent/falsy, which
resolves to `""`) and a positive numeric timestamp denotes a
representable date; every other malformed field degrades to a default.
A truthy non-string `freeText` (see the counterexample) throws. -/
theorem c4_ingest_total_amended (now : Tm) (evt : JsVal) (store : Store)
    (hn : evt.isNullish = false) (hft : evtFreeTextOk evt = true)
    (hts : evtTsOk evt = true) :
    isThrow (ingestEventStore now evt store) = false := by
  rw [ingestEventStore, if_neg (by simp [hn])]
  by_cases him : (jsOr (getFD evt "imei") (getFD evt "Imei")).truthy = true
  · simp only [him, Bool.not_true, Bool.false_eq_true, if_false]
    obtain ⟨d₁, hd₁⟩ := ingestEventDevice_isOk now evt
      (getOrCreate (jsOr (getFD evt "imei") (getFD evt "Imei")) store).1 hn hft hts
    simp [bind, Except.bind, hd₁, isThrow]
  · simp only [Bool.not_eq_true] at him
    simp [him, isThrow]

/-- C4 witness event: missing position, string free text, odd but
in-range timestamp. -/
def c4WEvt : JsVal :=
  .jobj [("imei", .jstr "A"), ("messageCode", .jnum 3), ("timeStamp", .jnum 1000),
         ("freeText", .jstr "ok"), ("point", .jnull)]

/-- C4 witness: a concrete well-typed event is ingested without a
throw. -/
theorem c4_ingest_total_amended_w :
    isThrow (ingestEventStore 50 c4WEvt []) = false :=
  c4_ingest_total_amended 50 c4WEvt [] rfl rfl (by decide)

/-- A bare SOS-state-machine event: message code and timestamp only. -/
def codeEvt (c tv : Rat) : JsVal :=
  .jobj [("messageCode", .jnum c), ("timeStamp", .jnum tv)]

/-- C1 counterexample: applying the spec sequence of message codes
4 (claimed declare), 6 (claimed update), 7 (claimed cancel),
4 (claimed re-declare) to a fresh asset.  `_ingestEvent`
(`src/server.js` lines 706-738) yields `isActiveSos`
`false, false, true, true` — not the claimed `true, true, false, true` —
and `lastSosEventAt` is only ever set by the code-7 event. -/
theorem c1_sos_sequence_cex :
    (do
      let d₁ ← ingestEventDevice 50 (codeEvt 4 100) (defaultDevice (.jstr "A"))
      let d₂ ← ingestEventDevice 50 (codeEvt 6 200) d₁
      let d₃ ← ingestEventDevice 50 (codeEvt 7 300) d₂
      let d₄ ← ingestEventDevice 50 (codeEvt 4 400) d₃
      pure (d₁.isActiveSos, d₂.isActiveSos, d₃.isActiveSos, d₄.isActiveSos,
        d₁.lastSosEventAt, d₂.lastSosEventAt, d₃.lastSosEventAt, d₄.lastSosEventAt))
      = Except.ok (false, false, true, true, none, none, some 300, some 300) := rfl

theorem posStep_codeEvt (t : Tm) (c tv : Rat) (dev : Device) :
    posStep t (codeEvt c tv) dev = dev := rfl

theorem msgStep_codeEvt_4 (t tv : Tm) (dev : Device) :
    msgStep t (codeEvt 4 tv) dev = .ok dev := rfl

theorem msgStep_codeEvt_6 (t tv : Tm) (dev : Device) :
    msgStep t (codeEvt 6 tv) dev = .ok dev := rfl

theorem msgStep_codeEvt_7 (t tv : Tm) (dev : Device) :
    msgStep t (codeEvt 7 tv) dev =
      .ok { dev with
            isActiveSos := true
            status := .opened
            lastSosEventAt := some t
            messages := dev.messages ++
              [{ id := .sosId t, direction := .inbound,
                 text := .jstr "SOS activated", is_sos := true, timestamp := t }]
            lastMessageAt := some t } := rfl

theorem ingest_codeEvt (now tv : Tm) (c : Rat) (dev : Device)
    (ht : 0 < tv) (hmax : tv ≤ maxDateMs) :
    ingestEventDevice now (codeEvt c tv) dev
      = msgStep tv (codeEvt c tv) { dev with lastEventAt := some tv } := by
  have hiso : dateToIso tv = .ok tv := by
    rw [dateToIso, if_pos]
    exact ⟨le_trans (by norm_num [maxDateMs]) (le_of_lt ht), hmax⟩
  have hts : tsResolve now (codeEvt c tv) = .ok tv := by
    show (if 0 < tv then dateToIso tv else .ok now) = .ok tv
    rw [if_pos ht, hiso]
  show (ingestEventDevice now (codeEvt c tv) dev) = _
  rw [ingestEventDevice]
  rw [if_neg (show ¬(codeEvt c tv).isNullish = true by
    simp [codeEvt, JsVal.isNullish])]
  rw [hts]
  show msgStep tv (codeEvt c tv) (posStep tv (codeEvt c tv)
    { dev with lastEventAt := some tv }) = _
  rw [posStep_codeEvt]

/-- The observations of the C1 sequence: `isActiveSos` and
`lastSosEventAt` after each of the four steps. -/
def c1runGen (now t₁ t₂ t₃ t₄ : Tm) (dev : Device) :
    Except JsErr (Bool × Bool × Bool × Bool ×
      Option Tm × Option Tm × Option Tm × Option Tm) := do
  let d₁ ← ingestEventDevice now (codeEvt 4 t₁) dev
  let d₂ ← ingestEventDevice now (codeEvt 6 t₂) d₁
  let d₃ ← ingestEventDevice now (codeEvt 7 t₃) d₂
  let d₄ ← ingestEventDevice now (codeEvt 4 t₄) d₃
  pure (d₁.isActiveSos, d₂.isActiveSos, d₃.isActiveSos, d₄.isActiveSos,
    d₁.lastSosEventAt, d₂.lastSosEventAt, d₃.lastSosEventAt, d₄.lastSosEventAt)

/-- C1 (amended): in `_ingestEvent`, code 7 — not 4 — declares SOS and no
inbound code cancels it: the sequence 4, 6, 7, 4 on an asset without
active SOS yields `isActiveSos` `false, false, true, true`, and
`lastSosEventAt` changes exactly once, on the code-7 event, to that
event's time. -/
theorem c1_sos_sequence_amended (now t₁ t₂ t₃ t₄ : Tm) (dev : Device)
    (h₁ : 0 < t₁) (h₁m : t₁ ≤ maxDateMs) (h₂ : 0 < t₂) (h₂m : t₂ ≤ maxDateMs)
    (h₃ : 0 < t₃) (h₃m : t₃ ≤ maxDateMs) (h₄ : 0 < t₄) (h₄m : t₄ ≤ maxDateMs)
    (hsos : dev.isActiveSos = false) :
    c1runGen now t₁ t₂ t₃ t₄ dev
      = .ok (false, false, true, true,
          dev.lastSosEventAt, dev.lastSosEventAt, some t₃, some t₃) := by
  have s1 : ingestEventDevice now (codeEvt 4 t₁) dev
      = .ok { dev with lastEventAt := some t₁ } := by
    rw [ingest_codeEvt now t₁ 4 dev h₁ h₁m, msgStep_codeEvt_4]
  have s2 : ingestEventDevice now (codeEvt 6 t₂) { dev with lastEventAt := some t₁ }
      = .ok { dev with lastEventAt := some t₂ } := by
    rw [ingest_codeEvt now t₂ 6 _ h₂ h₂m, msgStep_codeEvt_6]
  have s3 : ingestEventDevice now (codeEvt 7 t₃) { dev with lastEventAt := some t₂ }
      = .ok { dev with
              lastEventAt := some t₃
              isActiveSos := true
              status := .opened
              lastSosEventAt := some t₃
              messages := dev.messages ++
                [{ id := .sosId t₃, direction := .inbound,
                   text := .jstr "SOS activated", is_sos := true, timestamp := t₃ }]
              lastMessageAt := some t₃ } := by
    rw [ingest_codeEvt now t₃ 7 _ h₃ h₃m, msgStep_codeEvt_7]
  have s4 : ingestEventDevice now (codeEvt 4 t₄)
      { dev with
        lastEventAt := some t₃
        isActiveSos := true
        status := .opened
        lastSosEventAt := some t₃
        messages := dev.messages ++
          [{ id := .sosId t₃, direction := .inbound,
             text := .jstr "SOS activated", is_sos := true, timestamp := t₃ }]
        lastMessageAt := some t₃ }
      = .ok { dev with
              lastEventAt := some t₄
              isActiveSos := true
              status := .opened
              lastSosEventAt := some t₃
              messages := dev.messages ++
                [{ id := .sosId t₃, direction := .inbound,
                   text := .jstr "SOS activated", is_sos := true, timestamp := t₃ }]
              lastMessageAt := some t₃ } := by
    rw [ingest_codeEvt now t₄ 4 _ h₄ h₄m, msgStep_codeEvt_4]
  rw [c1runGen, s1]
  simp only [bind, Except.bind]
  rw [s2]
  simp only [bind, Except.bind]
  rw [s3]
  simp only [bind, Except.bind]
  rw [s4]
  simp only [bind, Except.bind, pure, Except.pure]
  simp [hsos]

/-- C1 witness: concrete times. -/
theorem c1_sos_sequence_amended_w :
    c1runGen 50 100 200 300 400 (defaultDevice (.jstr "A"))
      = .ok (false, false, true, true, none, none, some 300, some 300) :=
  c1_sos_sequence_amended 50 100 200 300 400 (defaultDevice (.jstr "A"))
    (by decide) (by decide) (by decide) (by decide)
    (by decide) (by decide) (by decide) (by decide) rfl
